import Mathlib

/-!
Shallow embedding of the video-restoration suite.

Source files embedded here:
 - src/process_video.py  (the unified preview + restore pipeline)
 - src/restore.py        (the standalone restore variant)

External processes and the filesystem are modelled explicitly.  The
filesystem is an association list from path to file size in bytes.  The
behaviour of the external world is an oracle: for the n-th external
process invocation of a run it yields (a) whether the invocation counts
as successful (binary found and exit status 0 — this is exactly the
boolean that safe_run in the source returns, in both its check modes,
since a CalledProcessError and a FileNotFoundError both produce False)
and (b) the set of filesystem writes and deletions the invoked process
performs.  Every Lean definition mirrors one Python function of the
source; line numbers in the doc comments refer to the source files.
-/

namespace VRS

/-- A filesystem: association list from path to size in bytes.  A path is
present iff a file (or directory, for probe targets such as the model
repositories) exists there. -/
abbrev FS := List (String × Nat)

/-- Lookup of a path in the filesystem. -/
def fsLookup : FS → String → Option Nat
  | [], _ => none
  | (q, n) :: rest, p => if q = p then some n else fsLookup rest p

/-- Removal of a path from the filesystem (models os.remove). -/
def fsErase : FS → String → FS
  | [], _ => []
  | (q, n) :: rest, p => if q = p then fsErase rest p else (q, n) :: fsErase rest p

/-- Creation or overwrite of a file of the given size. -/
def fsSet (fs : FS) (p : String) (n : Nat) : FS := (p, n) :: fsErase fs p

/-- Models os.path.exists (and os.path.isfile). -/
def path_exists (fs : FS) (p : String) : Bool := (fsLookup fs p).isSome

/-- Models os.path.getsize; the source only calls it on existing paths. -/
def getsize (fs : FS) (p : String) : Nat := (fsLookup fs p).getD 0

/-- One filesystem write performed by an external process: some n creates
or overwrites a file of size n, none deletes the path. -/
abbrev Effect := List (String × Option Nat)

/-- Application of the writes of one external process to the filesystem. -/
def applyEffect : FS → Effect → FS
  | fs, [] => fs
  | fs, (p, some n) :: rest => applyEffect (fsSet fs p n) rest
  | fs, (p, none) :: rest => applyEffect (fsErase fs p) rest

/-- The external world.  For the n-th external process invocation of a
run (counting from 0), result n tells whether the process was found and
exited 0, and effect n lists the filesystem changes it made. -/
structure Oracle where
  result : Nat → Bool
  effect : Nat → Effect

/-- Run state: the filesystem plus the log of external process
invocations made so far, each recorded as (description, argv). -/
structure St where
  fs : FS
  calls : List (String × List String)

/-- process_video.py lines 35-54, safe_run(cmd, desc, check): runs one
external process.  The returned Bool is True exactly when the binary was
found and exited 0: with check=True a non-zero exit raises
CalledProcessError which is caught and returns False, with check=False
the code returns returncode == 0; FileNotFoundError returns False in
both modes, so the chk flag does not alter the returned value. -/
def safe_run (o : Oracle) (st : St) (cmd : List String) (desc : String)
    (chk : Bool) : Bool × St :=
  ( o.result st.calls.length,
    { fs := applyEffect st.fs (o.effect st.calls.length),
      calls := st.calls ++ [(desc, cmd)] } )

/-- process_video.py lines 56-57: validation used on the run input. -/
def exists_and_size (fs : FS) (path : String) (min_bytes : Nat) : Bool :=
  path_exists fs path && decide (getsize fs path ≥ min_bytes)

/-- process_video.py lines 68-72, run_preview (ensure_dir only creates
directories and is invisible in this file-level model). -/
def run_preview (o : Oracle) (st : St) (input_path out_path : String)
    (length : Nat) : Bool × St :=
  safe_run o st
    ["ffmpeg", "-hide_banner", "-loglevel", "error", "-y", "-i", input_path,
     "-t", toString length, "-c:v", "libx264", "-preset", "fast", "-crf", "18",
     out_path] "FFmpeg preview" true

/-- process_video.py lines 75-87, do_stabilize: two vidstab passes; on
success (pass 2 ok and output present) the transforms.trf side file is
removed (errors of that removal are swallowed) and True is returned;
otherwise False.  The pass-1 result r1 is bound but never read, exactly
as ok1 in the source. -/
def do_stabilize (o : Oracle) (st : St) (infile outfile : String) : Bool × St :=
  let trans := "transforms.trf"
  let r1 := safe_run o st
    ["ffmpeg", "-y", "-i", infile, "-vf",
     "vidstabdetect=shakiness=5:accuracy=15:result=" ++ trans, "-f", "null", "-"]
    "vidstab detect (pass 1)" false
  let r2 := safe_run o r1.2
    ["ffmpeg", "-y", "-i", infile, "-vf",
     "vidstabtransform=input=" ++ trans ++ ":smoothing=30:zoom=5", outfile]
    "vidstab transform (pass 2)" false
  if r2.1 && path_exists r2.2.fs outfile then
    (true, { r2.2 with fs := fsErase r2.2.fs trans })
  else
    (false, r2.2)

/-- process_video.py lines 90-101, do_denoise: success is exactly the
safe_run result; no existence or size check on the produced file. -/
def do_denoise (o : Oracle) (st : St) (infile outfile method : String) :
    Bool × St :=
  if method = "hqdn3d" then
    safe_run o st
      ["ffmpeg", "-hide_banner", "-loglevel", "error", "-y", "-i", infile,
       "-vf", "hqdn3d=3.0:2.0:3.0:2.0", "-c:v", "libx264", "-preset", "fast",
       "-crf", "18", outfile] "FFmpeg denoise (hqdn3d)" true
  else if method = "nlmeans" then
    safe_run o st
      ["ffmpeg", "-hide_banner", "-loglevel", "error", "-y", "-i", infile,
       "-vf", "nlmeans", "-c:v", "libx264", "-preset", "fast",
       "-crf", "18", outfile] "FFmpeg denoise (nlmeans)" false
  else
    (false, st)

/-- process_video.py lines 104-107, do_color_and_sharpen. -/
def do_color_and_sharpen (o : Oracle) (st : St)
    (infile outfile eq_params unsharp_params : String) : Bool × St :=
  safe_run o st
    ["ffmpeg", "-hide_banner", "-loglevel", "error", "-y", "-i", infile,
     "-vf", "eq=" ++ eq_params ++ "," ++ unsharp_params, "-c:v", "libx264",
     "-preset", "slow", "-crf", "18", outfile] "Color correction + sharpen" false

/-- Default eq_params of do_color_and_sharpen (source line 104). -/
def default_eq_params : String := "contrast=1.05:brightness=0.01:saturation=1.08"

/-- Default unsharp_params of do_color_and_sharpen (source line 104). -/
def default_unsharp_params : String := "unsharp=5:5:0.8:3:3:0.4"

/-- process_video.py lines 112-116: candidate Real-ESRGAN entrypoints. -/
def realesrganCandidates : List String :=
  ["Real-ESRGAN/inference_realesrgan.py",
   "Real-ESRGAN/inference.py",
   "realesrgan/inference_realesrgan.py"]

/-- process_video.py lines 117-122: the candidate loop of
try_realesrgan.  For each candidate present on disk the script is run;
the loop returns early only when the run succeeded and the output file
exists, otherwise it continues with the next candidate. -/
def realesrgan_scan (o : Oracle) (infile outfile : String) :
    List String → St → Bool × St
  | [], st => (false, st)
  | c :: rest, st =>
    if path_exists st.fs c then
      let r := safe_run o st
        ["python3", c, "-i", infile, "-o", outfile, "-n", "RealESRGAN_x4plus"]
        ("Real-ESRGAN upscaling via " ++ c) false
      if r.1 && path_exists r.2.fs outfile then (true, r.2)
      else realesrgan_scan o infile outfile rest r.2
    else realesrgan_scan o infile outfile rest st

/-- process_video.py lines 110-131, try_realesrgan: candidate scan, then
(the importlib probe only prints a warning and changes nothing) the
ffmpeg geometric-scale fallback; the overall result is the scan hit or
the fallback safe_run result — the fallback output file is not
existence-checked. -/
def try_realesrgan (o : Oracle) (st : St) (infile outfile : String) : Bool × St :=
  let s := realesrgan_scan o infile outfile realesrganCandidates st
  if s.1 then s
  else
    safe_run o s.2
      ["ffmpeg", "-hide_banner", "-loglevel", "error", "-y", "-i", infile,
       "-vf", "scale=3840:trunc(ow/a/2)*2", "-c:v", "libx264", "-preset",
       "fast", "-crf", "18", outfile] "FFmpeg upscale fallback" true

/-- process_video.py lines 135-139: candidate RIFE entrypoints. -/
def rifeCandidates : List String :=
  ["ECCV2022-RIFE/inference_video.py",
   "RIFE/inference_video.py",
   "rife/inference_video.py"]

/-- process_video.py lines 140-148: the candidate loop of
try_rife_interpolate; for a present candidate two argument variants are
attempted in turn. -/
def rife_scan (o : Oracle) (infile outfile : String) :
    List String → St → Bool × St
  | [], st => (false, st)
  | c :: rest, st =>
    if path_exists st.fs c then
      let r1 := safe_run o st
        ["python3", c, "--exp", "2", "--video", infile, "--output", outfile]
        ("RIFE interp (via " ++ c ++ ")") false
      if r1.1 && path_exists r1.2.fs outfile then (true, r1.2)
      else
        let r2 := safe_run o r1.2
          ["python3", c, "--input", infile, "--output", outfile]
          ("RIFE interp alt (via " ++ c ++ ")") false
        if r2.1 && path_exists r2.2.fs outfile then (true, r2.2)
        else rife_scan o infile outfile rest r2.2
    else rife_scan o infile outfile rest st

/-- process_video.py lines 134-150, try_rife_interpolate: only the
candidate scan; when no entrypoint is found the function warns and
returns False — there is no ffmpeg fallback invocation.  The target_fps
parameter is accepted and never used, as in the source. -/
def try_rife_interpolate (o : Oracle) (st : St) (infile outfile : String)
    (target_fps : Nat) : Bool × St :=
  rife_scan o infile outfile rifeCandidates st

/-- process_video.py lines 153-155, final_encode. -/
def final_encode (o : Oracle) (st : St) (src dst : String) : Bool × St :=
  safe_run o st
    ["ffmpeg", "-hide_banner", "-loglevel", "error", "-y", "-i", src,
     "-c:v", "libx264", "-preset", "slow", "-crf", "18", dst] "Final encode" true

/-- Parsed command-line arguments of process_video.py (lines 159-170). -/
structure Args where
  input : String
  preview : Option String
  restoreOut : Option String
  stabilize : Bool
  denoise : Bool
  color : Bool
  upscale : Bool
  interpolate : Bool
  skip_models : Bool
  keep_temp : Bool

/-- process_video.py line 177: temporary file name of the stabilize stage. -/
def tmp_stab : String := "tmp_stab.mp4"

/-- process_video.py line 178: temporary file name of the denoise stage. -/
def tmp_deno : String := "tmp_deno.mp4"

/-- process_video.py line 179: temporary file name of the color stage. -/
def tmp_color : String := "tmp_color.mp4"

/-- process_video.py line 180: temporary file name of the upscale stage. -/
def tmp_up : String := "tmp_upscaled.mp4"

/-- process_video.py line 181: temporary file name of the interpolate stage. -/
def tmp_inter : String := "tmp_interpolated.mp4"

/-- process_video.py line 246: the list of temporaries the cleanup loop
walks over. -/
def tmpFiles : List String := [tmp_stab, tmp_deno, tmp_color, tmp_up, tmp_inter]

/-- process_video.py lines 195-200, stage 1: stabilize.  The pair is
(current artifact path, run state). -/
def step_stabilize (o : Oracle) (a : Args) (cs : String × St) : String × St :=
  if a.stabilize then
    let r := do_stabilize o cs.2 cs.1 tmp_stab
    if r.1 then (tmp_stab, r.2) else (cs.1, r.2)
  else cs

/-- process_video.py lines 203-208, stage 2: denoise. -/
def step_denoise (o : Oracle) (a : Args) (cs : String × St) : String × St :=
  if a.denoise then
    let r := do_denoise o cs.2 cs.1 tmp_deno "hqdn3d"
    if r.1 then (tmp_deno, r.2) else (cs.1, r.2)
  else cs

/-- process_video.py lines 211-216, stage 3: color and sharpen. -/
def step_color (o : Oracle) (a : Args) (cs : String × St) : String × St :=
  if a.color then
    let r := do_color_and_sharpen o cs.2 cs.1 tmp_color
      default_eq_params default_unsharp_params
    if r.1 then (tmp_color, r.2) else (cs.1, r.2)
  else cs

/-- process_video.py lines 219-227, stage 4: upscale.  The primary
branch runs only when upscale is requested and skip_models is not set;
the elif branch (upscale requested with skip_models set) only prints a
warning — no probing and no fallback invocation happen there. -/
def step_upscale (o : Oracle) (a : Args) (cs : String × St) : String × St :=
  if a.upscale && !a.skip_models then
    let r := try_realesrgan o cs.2 cs.1 tmp_up
    if r.1 then (tmp_up, r.2) else (cs.1, r.2)
  else cs

/-- process_video.py lines 230-235, stage 5: interpolate. -/
def step_interpolate (o : Oracle) (a : Args) (cs : String × St) : String × St :=
  if a.interpolate && !a.skip_models then
    let r := try_rife_interpolate o cs.2 cs.1 tmp_inter 60
    if r.1 then (tmp_inter, r.2) else (cs.1, r.2)
  else cs

/-- process_video.py lines 191-242: the restore block of main — five
optional stages threading the current artifact, then the unconditional
final encode to the requested output path.  The final_encode result only
selects between a warning and an info message (lines 239-242); the
returned current artifact is what was fed into the final encode. -/
def restore_pipeline (o : Oracle) (a : Args) (rpath input : String)
    (st : St) : String × St :=
  let s1 := step_stabilize o a (input, st)
  let s2 := step_denoise o a s1
  let s3 := step_color o a s2
  let s4 := step_upscale o a s3
  let s5 := step_interpolate o a s4
  let rf := final_encode o s5.2 s5.1 rpath
  (s5.1, rf.2)

/-- process_video.py lines 245-251: cleanup loop — for each listed temp
name, remove it when present (removal errors are swallowed). -/
def removeAll : FS → List String → FS
  | fs, [] => fs
  | fs, p :: rest => removeAll (if path_exists fs p then fsErase fs p else fs) rest

/-- Result of one run of process_video.py: the process exit status, the
final state, and the current-artifact variable at the end of the run. -/
structure RunResult where
  exitCode : Nat
  current : String
  finalSt : St

/-- process_video.py lines 158-251, main (named pv_main here because the
file also embeds the main of restore.py): input validation with
sys.exit(2), optional preview, optional restore pipeline, cleanup of the
five temporaries unless keep_temp.  A run that passes validation always
falls off the end of main, hence exit status 0 — a final-encode failure
only prints a warning (line 240). -/
def pv_main (o : Oracle) (fs : FS) (a : Args) : RunResult :=
  if !(exists_and_size fs a.input 2000) then
    { exitCode := 2, current := a.input, finalSt := { fs := fs, calls := [] } }
  else
    let st0 : St := { fs := fs, calls := [] }
    let st1 := match a.preview with
      | some p => (run_preview o st0 a.input p 10).2
      | none => st0
    let cs2 := match a.restoreOut with
      | some rpath => restore_pipeline o a rpath a.input st1
      | none => (a.input, st1)
    let stC := if a.keep_temp then cs2.2
      else { cs2.2 with fs := removeAll cs2.2.fs tmpFiles }
    { exitCode := 0, current := cs2.1, finalSt := stC }

/-- restore.py lines 8-17, run_cmd (renamed runCmd, the source name is a reserved word here): runs one external process and
swallows every failure (FileNotFoundError and CalledProcessError both
just print a warning); nothing is returned. -/
def runCmd (o : Oracle) (st : St) (cmd : List String) (description : String) : St :=
  { fs := applyEffect st.fs (o.effect st.calls.length),
    calls := st.calls ++ [(description, cmd)] }

/-- Parsed command-line arguments of restore.py (lines 20-24). -/
structure RArgs where
  input : String
  output : String
  skip_rife : Bool

/-- restore.py lines 19-63, main (named restore_main here): existence
check of the input with sys.exit(1) — no size check; Real-ESRGAN step or
shutil.copy of the input to temp_upscaled.mp4; optional RIFE step; final
ffmpeg encode.  Returns (exit status, final state).  No temporary is
ever cleaned up, and every failure after the input check is swallowed,
so every validated run exits 0. -/
def restore_main (o : Oracle) (fs : FS) (a : RArgs) : Nat × St :=
  if !(path_exists fs a.input) then
    (1, { fs := fs, calls := [] })
  else
    let st0 : St := { fs := fs, calls := [] }
    let st1 :=
      if path_exists st0.fs "Real-ESRGAN" then
        runCmd o st0
          ["python3", "Real-ESRGAN/inference_realesrgan.py",
           "-n", "RealESRGAN_x4plus", "-i", a.input, "-o", "temp_upscaled.mp4"]
          "Upscaling with Real-ESRGAN"
      else
        { st0 with fs := fsSet st0.fs "temp_upscaled.mp4" (getsize st0.fs a.input) }
    let p2 :=
      if !a.skip_rife && path_exists st1.fs "ECCV2022-RIFE" then
        ( runCmd o st1
            ["python3", "ECCV2022-RIFE/inference_video.py", "--exp", "2",
             "--video", "temp_upscaled.mp4", "--output", "temp_interpolated.mp4"]
            "Frame interpolation with RIFE",
          "temp_interpolated.mp4" )
      else (st1, "temp_upscaled.mp4")
    let st2 := runCmd o p2.1
      ["ffmpeg", "-y", "-i", p2.2, "-c:v", "libx264", "-preset", "slow",
       "-crf", "18", a.output] "Encoding final output"
    (0, st2)

end VRS

namespace VRS

/-- C1 counterexample.  The claim says every invocation with a missing or
undersized input exits with status 2 before any external process runs.
restore.py refutes both halves: a missing input exits with status 1, and
a merely undersized (10-byte) input is not rejected at all — the run
proceeds, invokes the final ffmpeg encode, and exits 0. -/
theorem C1_counterexample :
    (restore_main ⟨fun _ => false, fun _ => []⟩ []
      { input := "missing.mp4", output := "out.mp4", skip_rife := false }).1 = 1 ∧
    (1 : Nat) ≠ 2 ∧
    (restore_main ⟨fun _ => false, fun _ => []⟩ [("tiny.mp4", 10)]
      { input := "tiny.mp4", output := "out.mp4", skip_rife := false }).1 = 0 ∧
    ((restore_main ⟨fun _ => false, fun _ => []⟩ [("tiny.mp4", 10)]
      { input := "tiny.mp4", output := "out.mp4", skip_rife := false }).2.calls.map
        Prod.fst) = ["Encoding final output"] := by decide

/-- C3 counterexample.  A run with a valid input and restore requested in
which the final encode fails (the oracle makes every external process
fail) still exits with status 0, not 1: the failure only produces a
warning.  The call log shows the final encode was indeed the (only)
invoked process. -/
theorem C3_counterexample :
    (pv_main ⟨fun _ => false, fun _ => []⟩ [("in.mp4", 5000)]
      { input := "in.mp4", preview := none, restoreOut := some "out.mp4",
        stabilize := false, denoise := false, color := false, upscale := false,
        interpolate := false, skip_models := false, keep_temp := false }).exitCode
      = 0 ∧
    ((pv_main ⟨fun _ => false, fun _ => []⟩ [("in.mp4", 5000)]
      { input := "in.mp4", preview := none, restoreOut := some "out.mp4",
        stabilize := false, denoise := false, color := false, upscale := false,
        interpolate := false, skip_models := false, keep_temp := false }).finalSt.calls.map
        Prod.fst) = ["Final encode"] ∧
    (0 : Nat) ≠ 1 := by decide

/-- C4 counterexample.  A denoise stage whose ffmpeg invocation exits 0
but creates no output file (the oracle reports success with no
filesystem effect) still advances the current artifact to
tmp_deno.mp4, which does not exist — validation of existence and size
is not performed on stage outputs. -/
theorem C4_counterexample :
    (pv_main ⟨fun _ => true, fun _ => []⟩ [("in.mp4", 5000)]
      { input := "in.mp4", preview := none, restoreOut := some "out.mp4",
        stabilize := false, denoise := true, color := false, upscale := false,
        interpolate := false, skip_models := false, keep_temp := true }).current
      = "tmp_deno.mp4" ∧
    path_exists
      (pv_main ⟨fun _ => true, fun _ => []⟩ [("in.mp4", 5000)]
        { input := "in.mp4", preview := none, restoreOut := some "out.mp4",
          stabilize := false, denoise := true, color := false, upscale := false,
          interpolate := false, skip_models := false, keep_temp := true }).finalSt.fs
      "tmp_deno.mp4" = false := by decide

/-- C5 counterexample.  With skip_models set and upscale enabled, the
claim says the fallback geometric resize runs and advances the artifact.
In fact the only external process of the whole run is the final encode —
no resize is invoked — and the current artifact is still the input. -/
theorem C5_counterexample :
    ((pv_main ⟨fun _ => true, fun _ => []⟩ [("in.mp4", 5000)]
      { input := "in.mp4", preview := none, restoreOut := some "out.mp4",
        stabilize := false, denoise := false, color := false, upscale := true,
        interpolate := false, skip_models := true, keep_temp := false }).finalSt.calls.map
        Prod.fst) = ["Final encode"] ∧
    (pv_main ⟨fun _ => true, fun _ => []⟩ [("in.mp4", 5000)]
      { input := "in.mp4", preview := none, restoreOut := some "out.mp4",
        stabilize := false, denoise := false, color := false, upscale := true,
        interpolate := false, skip_models := true, keep_temp := false }).current
      = "in.mp4" := by decide

/-- C6 counterexample.  With interpolate enabled and no RIFE entrypoint
on disk, the claim says a deterministic ffmpeg motion-interpolation
fallback is invoked and the artifact advances.  In fact the only
external process of the run is the final encode — try_rife_interpolate
has no fallback — and the current artifact is still the input. -/
theorem C6_counterexample :
    ((pv_main ⟨fun _ => true, fun _ => []⟩ [("in.mp4", 5000)]
      { input := "in.mp4", preview := none, restoreOut := some "out.mp4",
        stabilize := false, denoise := false, color := false, upscale := false,
        interpolate := true, skip_models := false, keep_temp := false }).finalSt.calls.map
        Prod.fst) = ["Final encode"] ∧
    (pv_main ⟨fun _ => true, fun _ => []⟩ [("in.mp4", 5000)]
      { input := "in.mp4", preview := none, restoreOut := some "out.mp4",
        stabilize := false, denoise := false, color := false, upscale := false,
        interpolate := true, skip_models := false, keep_temp := false }).current
      = "in.mp4" := by decide

/-- C7 counterexample.  Two distinct runs (different inputs a.mp4 and
b.mp4) both invoke a stabilize pass-2 command whose output target is the
same fixed temporary path tmp_stab.mp4: temporary names are shared
constants, not unique per run. -/
theorem C7_counterexample :
    (pv_main ⟨fun _ => false, fun _ => []⟩ [("a.mp4", 3000)]
      { input := "a.mp4", preview := none, restoreOut := some "out1.mp4",
        stabilize := true, denoise := false, color := false, upscale := false,
        interpolate := false, skip_models := false, keep_temp := false }).finalSt.calls.get? 1
      = some ("vidstab transform (pass 2)",
          ["ffmpeg", "-y", "-i", "a.mp4", "-vf",
           "vidstabtransform=input=transforms.trf:smoothing=30:zoom=5",
           "tmp_stab.mp4"]) ∧
    (pv_main ⟨fun _ => false, fun _ => []⟩ [("b.mp4", 3000)]
      { input := "b.mp4", preview := none, restoreOut := some "out2.mp4",
        stabilize := true, denoise := false, color := false, upscale := false,
        interpolate := false, skip_models := false, keep_temp := false }).finalSt.calls.get? 1
      = some ("vidstab transform (pass 2)",
          ["ffmpeg", "-y", "-i", "b.mp4", "-vf",
           "vidstabtransform=input=transforms.trf:smoothing=30:zoom=5",
           "tmp_stab.mp4"]) ∧
    ("a.mp4" : String) ≠ "b.mp4" := by decide

/-- C8 counterexample.  Stabilize pass 1 succeeds and creates
transforms.trf, pass 2 fails, every later process fails too; the run
completes with exit status 0, yet transforms.trf is still present after
cleanup — the cleanup loop only removes the five fixed video
temporaries, and do_stabilize removes the transforms file only on
success. -/
theorem C8_counterexample :
    path_exists
      (pv_main
        ⟨fun n => n == 0,
         fun n => if n == 0 then [("transforms.trf", some 100)] else []⟩
        [("in.mp4", 5000)]
        { input := "in.mp4", preview := none, restoreOut := some "out.mp4",
          stabilize := true, denoise := false, color := false, upscale := false,
          interpolate := false, skip_models := false, keep_temp := false }).finalSt.fs
      "transforms.trf" = true ∧
    (pv_main
      ⟨fun n => n == 0,
       fun n => if n == 0 then [("transforms.trf", some 100)] else []⟩
      [("in.mp4", 5000)]
      { input := "in.mp4", preview := none, restoreOut := some "out.mp4",
        stabilize := true, denoise := false, color := false, upscale := false,
        interpolate := false, skip_models := false, keep_temp := false }).exitCode
      = 0 := by decide

end VRS

namespace VRS

/-- Count of final-encode invocations in a call log, identified by the
description string that final_encode alone passes to safe_run. -/
def countFE (calls : List (String × List String)) : Nat :=
  calls.countP (fun c => decide (c.1 = "Final encode"))

theorem countFE_append_ne (l : List (String × List String)) (d : String)
    (cmd : List String) (h : d ≠ "Final encode") :
    countFE (l ++ [(d, cmd)]) = countFE l := by
  simp [countFE, List.countP_append, List.countP_cons, h]

theorem countFE_append_FE (l : List (String × List String)) (cmd : List String) :
    countFE (l ++ [("Final encode", cmd)]) = countFE l + 1 := by
  simp [countFE, List.countP_append, List.countP_cons]

theorem long_left_ne_FE (p c : String) (hp : 12 < p.length) :
    p ++ c ≠ "Final encode" := by
  intro h
  have hl := congrArg String.length h
  rw [String.length_append] at hl
  have h2 : ("Final encode").length = 12 := rfl
  omega

theorem long_mid_ne_FE (p c q : String) (hp : 12 < p.length) :
    p ++ c ++ q ≠ "Final encode" := by
  intro h
  have hl := congrArg String.length h
  rw [String.length_append, String.length_append] at hl
  have h2 : ("Final encode").length = 12 := rfl
  omega

theorem countFE_safe_run_ne (o : Oracle) (st : St) (cmd : List String)
    (d : String) (chk : Bool) (h : d ≠ "Final encode") :
    countFE (safe_run o st cmd d chk).2.calls = countFE st.calls :=
  countFE_append_ne st.calls d cmd h

theorem countFE_do_stabilize (o : Oracle) (st : St) (i u : String) :
    countFE (do_stabilize o st i u).2.calls = countFE st.calls := by
  unfold do_stabilize
  dsimp only
  split
  · rw [countFE_safe_run_ne _ _ _ _ _ (by decide),
      countFE_safe_run_ne _ _ _ _ _ (by decide)]
  · rw [countFE_safe_run_ne _ _ _ _ _ (by decide),
      countFE_safe_run_ne _ _ _ _ _ (by decide)]

theorem countFE_do_denoise (o : Oracle) (st : St) (i u m : String) :
    countFE (do_denoise o st i u m).2.calls = countFE st.calls := by
  unfold do_denoise
  split
  · exact countFE_safe_run_ne _ _ _ _ _ (by decide)
  split
  · exact countFE_safe_run_ne _ _ _ _ _ (by decide)
  · rfl

theorem countFE_do_color (o : Oracle) (st : St) (i u ep up : String) :
    countFE (do_color_and_sharpen o st i u ep up).2.calls = countFE st.calls :=
  countFE_safe_run_ne _ _ _ _ _ (by decide)

theorem countFE_realesrgan_scan (o : Oracle) (i u : String) (cs : List String)
    (st : St) :
    countFE (realesrgan_scan o i u cs st).2.calls = countFE st.calls := by
  induction cs generalizing st with
  | nil => rfl
  | cons c rest ih =>
    unfold realesrgan_scan
    dsimp only
    split
    · split
      · exact countFE_safe_run_ne o st _ _ false
          (long_left_ne_FE _ _ (by decide))
      · rw [ih]
        exact countFE_safe_run_ne o st _ _ false
          (long_left_ne_FE _ _ (by decide))
    · exact ih st

theorem countFE_try_realesrgan (o : Oracle) (st : St) (i u : String) :
    countFE (try_realesrgan o st i u).2.calls = countFE st.calls := by
  unfold try_realesrgan
  dsimp only
  split
  · exact countFE_realesrgan_scan o i u realesrganCandidates st
  · rw [countFE_safe_run_ne _ _ _ _ _ (by decide)]
    exact countFE_realesrgan_scan o i u realesrganCandidates st

theorem countFE_rife_scan (o : Oracle) (i u : String) (cs : List String)
    (st : St) :
    countFE (rife_scan o i u cs st).2.calls = countFE st.calls := by
  induction cs generalizing st with
  | nil => rfl
  | cons c rest ih =>
    unfold rife_scan
    dsimp only
    split
    · split
      · exact countFE_safe_run_ne o st _ _ false
          (long_mid_ne_FE _ _ _ (by decide))
      · split
        · rw [countFE_safe_run_ne _ _ _ _ _
            (long_mid_ne_FE _ _ _ (by decide))]
          exact countFE_safe_run_ne o st _ _ false
            (long_mid_ne_FE _ _ _ (by decide))
        · rw [ih]
          rw [countFE_safe_run_ne _ _ _ _ _
            (long_mid_ne_FE _ _ _ (by decide))]
          exact countFE_safe_run_ne o st _ _ false
            (long_mid_ne_FE _ _ _ (by decide))
    · exact ih st

theorem countFE_try_rife (o : Oracle) (st : St) (i u : String) (tf : Nat) :
    countFE (try_rife_interpolate o st i u tf).2.calls = countFE st.calls :=
  countFE_rife_scan o i u rifeCandidates st

theorem countFE_run_preview (o : Oracle) (st : St) (i u : String) (len : Nat) :
    countFE (run_preview o st i u len).2.calls = countFE st.calls :=
  countFE_safe_run_ne _ _ _ _ _ (by decide)

theorem countFE_final_encode (o : Oracle) (st : St) (s d : String) :
    countFE (final_encode o st s d).2.calls = countFE st.calls + 1 :=
  countFE_append_FE st.calls _

end VRS

namespace VRS

theorem countFE_step_stabilize (o : Oracle) (a : Args) (cs : String × St) :
    countFE (step_stabilize o a cs).2.calls = countFE cs.2.calls := by
  unfold step_stabilize
  dsimp only
  split
  · split
    · exact countFE_do_stabilize o cs.2 cs.1 tmp_stab
    · exact countFE_do_stabilize o cs.2 cs.1 tmp_stab
  · rfl

theorem countFE_step_denoise (o : Oracle) (a : Args) (cs : String × St) :
    countFE (step_denoise o a cs).2.calls = countFE cs.2.calls := by
  unfold step_denoise
  dsimp only
  split
  · split
    · exact countFE_do_denoise o cs.2 cs.1 tmp_deno "hqdn3d"
    · exact countFE_do_denoise o cs.2 cs.1 tmp_deno "hqdn3d"
  · rfl

theorem countFE_step_color (o : Oracle) (a : Args) (cs : String × St) :
    countFE (step_color o a cs).2.calls = countFE cs.2.calls := by
  unfold step_color
  dsimp only
  split
  · split
    · exact countFE_do_color o cs.2 cs.1 tmp_color _ _
    · exact countFE_do_color o cs.2 cs.1 tmp_color _ _
  · rfl

theorem countFE_step_upscale (o : Oracle) (a : Args) (cs : String × St) :
    countFE (step_upscale o a cs).2.calls = countFE cs.2.calls := by
  unfold step_upscale
  dsimp only
  split
  · split
    · exact countFE_try_realesrgan o cs.2 cs.1 tmp_up
    · exact countFE_try_realesrgan o cs.2 cs.1 tmp_up
  · rfl

theorem countFE_step_interpolate (o : Oracle) (a : Args) (cs : String × St) :
    countFE (step_interpolate o a cs).2.calls = countFE cs.2.calls := by
  unfold step_interpolate
  dsimp only
  split
  · split
    · exact countFE_try_rife o cs.2 cs.1 tmp_inter 60
    · exact countFE_try_rife o cs.2 cs.1 tmp_inter 60
  · rfl

theorem countFE_restore_pipeline (o : Oracle) (a : Args) (rpath input : String)
    (st : St) :
    countFE (restore_pipeline o a rpath input st).2.calls = countFE st.calls + 1 := by
  unfold restore_pipeline
  dsimp only
  rw [countFE_final_encode, countFE_step_interpolate, countFE_step_upscale,
    countFE_step_color, countFE_step_denoise]
  exact congrArg (· + 1) (countFE_step_stabilize o a (input, st))

end VRS

namespace VRS

/-- C2: for every restore run — any oracle behaviour whatsoever for the
optional stages, any combination of stage flags, with or without a
preview — the final encode is invoked exactly once: the call log of the
whole run contains exactly one invocation described "Final encode". -/
theorem C2_final_encode_once (o : Oracle) (fs : FS) (a : Args) (r : String)
    (hr : a.restoreOut = some r) (hv : exists_and_size fs a.input 2000 = true) :
    countFE (pv_main o fs a).finalSt.calls = 1 := by
  unfold pv_main
  rw [hv, hr]
  cases hp : a.preview with
  | none =>
    cases hk : a.keep_temp <;>
      simp [hk, countFE_restore_pipeline] <;> rfl
  | some p =>
    cases hk : a.keep_temp <;>
      simp [hk, countFE_restore_pipeline, countFE_run_preview] <;> rfl

/-- C2 witness: a concrete restore run (every external process fails) in
which the final encode is invoked exactly once. -/
theorem C2_final_encode_once_witness :
    countFE (pv_main ⟨fun _ => false, fun _ => []⟩ [("in.mp4", 5000)]
      { input := "in.mp4", preview := none, restoreOut := some "out.mp4",
        stabilize := true, denoise := true, color := true, upscale := true,
        interpolate := true, skip_models := false,
        keep_temp := false }).finalSt.calls = 1 :=
  C2_final_encode_once _ _ _ "out.mp4" rfl (by decide)

end VRS

namespace VRS

theorem fsLookup_fsErase_self (fs : FS) (p : String) :
    fsLookup (fsErase fs p) p = none := by
  induction fs with
  | nil => rfl
  | cons hd tl ih =>
    obtain ⟨q, n⟩ := hd
    by_cases hq : q = p
    · simpa [fsErase, hq] using ih
    · simpa [fsErase, fsLookup, hq] using ih

theorem fsLookup_fsErase_none (fs : FS) (p q : String)
    (h : fsLookup fs p = none) : fsLookup (fsErase fs q) p = none := by
  induction fs with
  | nil => rfl
  | cons hd tl ih =>
    obtain ⟨x, n⟩ := hd
    by_cases hxp : x = p
    · simp [fsLookup, hxp] at h
    · have h2 : fsLookup tl p = none := by simpa [fsLookup, hxp] using h
      by_cases hxq : x = q
      · simpa [fsErase, hxq] using ih h2
      · simpa [fsErase, fsLookup, hxq, hxp] using ih h2

theorem removeAll_preserves_none (ps : List String) (fs : FS) (p : String)
    (h : fsLookup fs p = none) : fsLookup (removeAll fs ps) p = none := by
  induction ps generalizing fs with
  | nil => exact h
  | cons q rest ih =>
    unfold removeAll
    split
    · exact ih _ (fsLookup_fsErase_none fs p q h)
    · exact ih _ h

theorem removeAll_mem (fs : FS) (ps : List String) (p : String) (hp : p ∈ ps) :
    path_exists (removeAll fs ps) p = false := by
  induction ps generalizing fs with
  | nil => cases hp
  | cons q rest ih =>
    unfold removeAll
    rcases List.mem_cons.mp hp with h | h
    · subst h
      have hnone : fsLookup (if path_exists fs p then fsErase fs p else fs) p = none := by
        split
        · exact fsLookup_fsErase_self fs p
        · rename_i hex
          cases hl : fsLookup fs p with
          | none => rfl
          | some v => simp [path_exists, hl] at hex
      have h2 := removeAll_preserves_none rest _ p hnone
      simp only [path_exists] at h2 ⊢
      rw [h2]
      rfl
    · exact ih _ h

/-- For every validated run without keep_temp, the five fixed temporary
names are absent from the final filesystem. -/
theorem pv_main_cleanup (o : Oracle) (fs : FS) (a : Args)
    (hv : exists_and_size fs a.input 2000 = true) (hk : a.keep_temp = false) :
    ∀ p ∈ tmpFiles, path_exists (pv_main o fs a).finalSt.fs p = false := by
  intro p hp
  unfold pv_main
  rw [hv]
  simp only [Bool.not_true, Bool.false_eq_true, if_false, hk]
  exact removeAll_mem _ tmpFiles p hp

end VRS

namespace VRS

theorem fst_ite_pair {α β : Type} (c : Bool) (x y : α) (A B : β) :
    (if c then (x, A) else (y, B)).1 = if c then x else y := by
  cases c <;> rfl

theorem fst_ite_tf {β : Type} (c : Bool) (A B : β) :
    (if c then ((true : Bool), A) else (false, B)).1 = c := by
  cases c <;> rfl

/-- Success criterion of do_stabilize: the pass-2 result and the
existence of the output after both passes ran; the pass-1 result
(oracle index st.calls.length) does not occur. -/
theorem do_stabilize_fst (o : Oracle) (st : St) (i u : String) :
    (do_stabilize o st i u).1
      = (o.result (st.calls.length + 1)
          && path_exists
              (applyEffect (applyEffect st.fs (o.effect st.calls.length))
                (o.effect (st.calls.length + 1))) u) := by
  unfold do_stabilize
  simp only [safe_run, List.length_append, List.length_cons, List.length_nil,
    Nat.zero_add]
  exact fst_ite_tf _ _ _

/-- When do_stabilize fails, its final filesystem is exactly what the
two vidstab passes left behind: nothing (in particular not the
transforms.trf side file) is removed by the stage. -/
theorem do_stabilize_fail_fs (o : Oracle) (st : St) (i u : String)
    (hfail : (do_stabilize o st i u).1 = false) :
    (do_stabilize o st i u).2.fs
      = applyEffect (applyEffect st.fs (o.effect st.calls.length))
          (o.effect (st.calls.length + 1)) := by
  unfold do_stabilize at hfail ⊢
  dsimp only at hfail ⊢
  split at hfail
  · simp at hfail
  · rename_i h
    rw [if_neg h]
    simp [safe_run]

end VRS

namespace VRS

/-- C1 (amended): an invocation of process_video.py whose input is
missing or under the 2000-byte threshold exits with status 2 and invokes
zero external processes; an invocation of restore.py whose input is
missing exits with status 1 (not 2) and invokes zero external processes
— restore.py performs no minimum-size check at all. -/
theorem C1_amended (o : Oracle) (fs : FS) (a : Args) (ra : RArgs)
    (h1 : exists_and_size fs a.input 2000 = false)
    (h2 : path_exists fs ra.input = false) :
    (pv_main o fs a).exitCode = 2 ∧ (pv_main o fs a).finalSt.calls = [] ∧
    (restore_main o fs ra).1 = 1 ∧ (restore_main o fs ra).2.calls = [] := by
  unfold pv_main restore_main
  rw [h1, h2]
  exact ⟨rfl, rfl, rfl, rfl⟩

/-- C1 witness: concrete invalid inputs for both entry points. -/
theorem C1_amended_witness :
    (pv_main ⟨fun _ => true, fun _ => []⟩ []
      { input := "gone.mp4", preview := none, restoreOut := some "out.mp4",
        stabilize := true, denoise := true, color := true, upscale := true,
        interpolate := true, skip_models := false, keep_temp := false }).exitCode = 2 ∧
    (pv_main ⟨fun _ => true, fun _ => []⟩ []
      { input := "gone.mp4", preview := none, restoreOut := some "out.mp4",
        stabilize := true, denoise := true, color := true, upscale := true,
        interpolate := true, skip_models := false, keep_temp := false }).finalSt.calls = [] ∧
    (restore_main ⟨fun _ => true, fun _ => []⟩ []
      { input := "gone.mp4", output := "out.mp4", skip_rife := false }).1 = 1 ∧
    (restore_main ⟨fun _ => true, fun _ => []⟩ []
      { input := "gone.mp4", output := "out.mp4", skip_rife := false }).2.calls = [] :=
  C1_amended _ _ _ _ (by decide) (by decide)

/-- C3 (amended): the exit status of a process_video.py run is 2 exactly
when input validation fails and 0 otherwise — a final-encode failure is
only warned about and never surfaces as a non-zero exit; likewise
restore.py exits 1 exactly when the input is missing and 0 otherwise.
No run of either program exits with any other status. -/
theorem C3_amended (o : Oracle) (fs : FS) (a : Args) (ra : RArgs) :
    (pv_main o fs a).exitCode
      = (if exists_and_size fs a.input 2000 then 0 else 2) ∧
    (restore_main o fs ra).1
      = (if path_exists fs ra.input then 0 else 1) := by
  constructor
  · cases hv : exists_and_size fs a.input 2000 <;> simp [pv_main, hv]
  · cases hv : path_exists fs ra.input <;> simp [restore_main, hv]

/-- C4 (amended): a stage output replaces the current artifact exactly
when the own success test of the stage passes, and that test never includes
the minimum-size threshold: denoise and color-sharpen succeed exactly
when their single external process reports exit status 0 (the produced
file is not checked at all), and stabilize succeeds exactly when pass 2
reports exit status 0 and the output path exists afterwards (its size is
not checked).  The exists-and-size validation is applied only to the run
input. -/
theorem C4_amended (o : Oracle) (st : St) (i u ep up : String) :
    (do_denoise o st i u "hqdn3d").1 = o.result st.calls.length ∧
    (do_color_and_sharpen o st i u ep up).1 = o.result st.calls.length ∧
    (do_stabilize o st i u).1
      = (o.result (st.calls.length + 1)
          && path_exists
              (applyEffect (applyEffect st.fs (o.effect st.calls.length))
                (o.effect (st.calls.length + 1))) u) :=
  ⟨rfl, rfl, do_stabilize_fst o st i u⟩

/-- C5 (amended): with skip_models set and upscale enabled the upscale
stage is skipped entirely — no candidate probing, no neural invocation
and no ffmpeg fallback resize run; the current artifact and the whole
run state pass through unchanged. -/
theorem C5_amended (o : Oracle) (a : Args) (cs : String × St) :
    step_upscale o { a with upscale := true, skip_models := true } cs = cs := by
  unfold step_upscale
  rfl

end VRS

namespace VRS

theorem rife_scan_none (o : Oracle) (i u : String) (st : St)
    (h1 : path_exists st.fs "ECCV2022-RIFE/inference_video.py" = false)
    (h2 : path_exists st.fs "RIFE/inference_video.py" = false)
    (h3 : path_exists st.fs "rife/inference_video.py" = false) :
    rife_scan o i u rifeCandidates st = (false, st) := by
  unfold rifeCandidates
  unfold rife_scan
  rw [h1]
  unfold rife_scan
  rw [h2]
  unfold rife_scan
  rw [h3]
  rfl

/-- C6 (amended): when the interpolate stage is enabled and none of the
three RIFE entrypoint candidates exists on disk, no interpolation
command at all is invoked — try_rife_interpolate has no ffmpeg
motion-interpolation fallback; it returns failure with the state
untouched and the interpolate stage retains the current artifact
unchanged. -/
theorem C6_amended (o : Oracle) (a : Args) (cur : String) (st : St)
    (i u : String) (tf : Nat)
    (h1 : path_exists st.fs "ECCV2022-RIFE/inference_video.py" = false)
    (h2 : path_exists st.fs "RIFE/inference_video.py" = false)
    (h3 : path_exists st.fs "rife/inference_video.py" = false) :
    try_rife_interpolate o st i u tf = (false, st) ∧
    step_interpolate o { a with interpolate := true, skip_models := false }
      (cur, st) = (cur, st) := by
  constructor
  · exact rife_scan_none o i u st h1 h2 h3
  · unfold step_interpolate
    dsimp only
    rw [if_pos (by decide : ((true && !false) = true))]
    rw [show try_rife_interpolate o st cur tmp_inter 60 = (false, st) from
      rife_scan_none o cur tmp_inter st h1 h2 h3]
    rfl

/-- C6 witness: a concrete state with no RIFE entrypoint on disk. -/
theorem C6_amended_witness :
    try_rife_interpolate ⟨fun _ => true, fun _ => []⟩
      ⟨[("in.mp4", 5000)], []⟩ "in.mp4" "tmp_interpolated.mp4" 60
      = (false, ⟨[("in.mp4", 5000)], []⟩) ∧
    step_interpolate ⟨fun _ => true, fun _ => []⟩
      { input := "in.mp4", preview := none, restoreOut := some "out.mp4",
        stabilize := false, denoise := false, color := false, upscale := false,
        interpolate := true, skip_models := false, keep_temp := false }
      ("in.mp4", ⟨[("in.mp4", 5000)], []⟩)
      = ("in.mp4", ⟨[("in.mp4", 5000)], []⟩) := by
  have h := C6_amended ⟨fun _ => true, fun _ => []⟩
    { input := "in.mp4", preview := none, restoreOut := some "out.mp4",
      stabilize := false, denoise := false, color := false, upscale := false,
      interpolate := true, skip_models := false, keep_temp := false }
    "in.mp4" ⟨[("in.mp4", 5000)], []⟩ "in.mp4" "tmp_interpolated.mp4" 60
    (by decide) (by decide) (by decide)
  exact ⟨h.1, h.2⟩

/-- C7 (amended): within one run no two stages share a temporary path —
the five temporary video names and the stabilization transforms file are
pairwise distinct — but these names are fixed constants, identical in
every run, so distinct (for instance concurrent) runs write to the same
temporary paths. -/
theorem C7_amended : ("transforms.trf" :: tmpFiles).Nodup := by decide

end VRS

namespace VRS

/-- C8 (amended): on completion of a validated run without keep_temp,
the cleanup removes exactly the five fixed temporary video files; the
stabilization transforms file is not among them, and a failed stabilize
stage leaves the filesystem exactly as its two passes wrote it — the
transforms file created by pass 1 is then never removed and survives the
run. -/
theorem C8_amended (o : Oracle) (fs : FS) (a : Args) (st : St) (i u : String)
    (hv : exists_and_size fs a.input 2000 = true) (hk : a.keep_temp = false)
    (hfail : (do_stabilize o st i u).1 = false) :
    ("transforms.trf" ∉ tmpFiles) ∧
    (do_stabilize o st i u).2.fs
      = applyEffect (applyEffect st.fs (o.effect st.calls.length))
          (o.effect (st.calls.length + 1)) ∧
    (∀ p ∈ tmpFiles, path_exists (pv_main o fs a).finalSt.fs p = false) :=
  ⟨by decide, do_stabilize_fail_fs o st i u hfail, pv_main_cleanup o fs a hv hk⟩

/-- C8 witness: a concrete run in which stabilize pass 1 creates the
transforms file and pass 2 fails. -/
theorem C8_amended_witness :
    ("transforms.trf" ∉ tmpFiles) ∧
    (do_stabilize ⟨fun n => n == 0,
        fun n => if n == 0 then [("transforms.trf", some 100)] else []⟩
      ⟨[("in.mp4", 5000)], []⟩ "in.mp4" "tmp_stab.mp4").2.fs
      = applyEffect
          (applyEffect [("in.mp4", 5000)]
            ((⟨fun n => n == 0,
               fun n => if n == 0 then [("transforms.trf", some 100)] else []⟩ :
                Oracle).effect 0))
          ((⟨fun n => n == 0,
             fun n => if n == 0 then [("transforms.trf", some 100)] else []⟩ :
              Oracle).effect 1) ∧
    path_exists
      (pv_main ⟨fun n => n == 0,
          fun n => if n == 0 then [("transforms.trf", some 100)] else []⟩
        [("in.mp4", 5000)]
        { input := "in.mp4", preview := none, restoreOut := some "out.mp4",
          stabilize := true, denoise := false, color := false,
          upscale := false, interpolate := false, skip_models := false,
          keep_temp := false }).finalSt.fs "tmp_stab.mp4" = false := by
  have h := C8_amended
    ⟨fun n => n == 0,
     fun n => if n == 0 then [("transforms.trf", some 100)] else []⟩
    [("in.mp4", 5000)]
    { input := "in.mp4", preview := none, restoreOut := some "out.mp4",
      stabilize := true, denoise := false, color := false,
      upscale := false, interpolate := false, skip_models := false,
      keep_temp := false }
    ⟨[("in.mp4", 5000)], []⟩ "in.mp4" "tmp_stab.mp4" (by decide) rfl (by decide)
  exact ⟨h.1, h.2.1, h.2.2 "tmp_stab.mp4" (by decide)⟩

/-- C9: the stabilize stage succeeds — and the current artifact advances
to the stabilized output — exactly when the second (transform) pass
reports exit status 0 and the output file exists afterwards; the pass-1
result (oracle index st.calls.length) does not occur in the success
criterion, so the detect pass is run but its result is never
consulted. -/
theorem C9_pass1_never_consulted (o : Oracle) (a : Args) (cur : String)
    (st : St) (u : String) :
    (do_stabilize o st cur u).1
      = (o.result (st.calls.length + 1)
          && path_exists
              (applyEffect (applyEffect st.fs (o.effect st.calls.length))
                (o.effect (st.calls.length + 1))) u) ∧
    (step_stabilize o { a with stabilize := true } (cur, st)).1
      = (if (do_stabilize o st cur tmp_stab).1 then tmp_stab else cur) := by
  refine ⟨do_stabilize_fst o st cur u, ?_⟩
  unfold step_stabilize
  rw [if_pos rfl]
  exact fst_ite_pair _ _ _ _ _

/-- C10: on every run that passes input validation and does not request
temporary retention — in particular a preview-only run that created no
temporaries — the cleanup deletes each of the five fixed temporary
filenames from the working directory if present, including pre-existing
files of those names the run did not create (the initial filesystem is
arbitrary). -/
theorem C10_cleanup (o : Oracle) (fs : FS) (a : Args)
    (hv : exists_and_size fs a.input 2000 = true) (hk : a.keep_temp = false) :
    tmpFiles = ["tmp_stab.mp4", "tmp_deno.mp4", "tmp_color.mp4",
      "tmp_upscaled.mp4", "tmp_interpolated.mp4"] ∧
    ∀ p ∈ tmpFiles, path_exists (pv_main o fs a).finalSt.fs p = false :=
  ⟨rfl, pv_main_cleanup o fs a hv hk⟩

/-- C10 witness: a preview-only run over a filesystem that already
contains a pre-existing tmp_stab.mp4; the run deletes it anyway. -/
theorem C10_cleanup_witness :
    tmpFiles = ["tmp_stab.mp4", "tmp_deno.mp4", "tmp_color.mp4",
      "tmp_upscaled.mp4", "tmp_interpolated.mp4"] ∧
    path_exists
      (pv_main ⟨fun _ => true, fun _ => []⟩
        [("in.mp4", 5000), ("tmp_stab.mp4", 777)]
        { input := "in.mp4", preview := some "prev.mp4", restoreOut := none,
          stabilize := false, denoise := false, color := false,
          upscale := false, interpolate := false, skip_models := false,
          keep_temp := false }).finalSt.fs "tmp_stab.mp4" = false := by
  have h := C10_cleanup ⟨fun _ => true, fun _ => []⟩
    [("in.mp4", 5000), ("tmp_stab.mp4", 777)]
    { input := "in.mp4", preview := some "prev.mp4", restoreOut := none,
      stabilize := false, denoise := false, color := false,
      upscale := false, interpolate := false, skip_models := false,
      keep_temp := false } (by decide) rfl
  exact ⟨h.1, h.2 "tmp_stab.mp4" (by decide)⟩

end VRS
